import Mathlib

/-!
Shallow embedding of `usr/local/bin/iss-tracker.py` (class `ISSTrackerApp`).

Numbers: Python floats are modelled as exact numbers — rationals (`ℚ`)
where the source only does field arithmetic and flooring, reals (`ℝ`)
where the source calls trigonometric functions.  External collaborators
(tkinter canvas, `requests`, `jday`/`datetime`, the sgp4 perturbation
model) are parameters of the embedded functions: a satellite object is
represented by its `sgp4` method, a function from a Julian date pair to
an error code and an inertial position.  Python runtime exceptions that
the source does not catch are modelled with `Except PyErr`.
-/

namespace ISSTracker

/-- Python runtime exceptions that the embedded fragment can raise. -/
inductive PyErr where
  | zeroDivisionError
  | attributeError
  deriving DecidableEq, Repr

/-- Inertial position vector, the `pos` triple returned by `Satrec.sgp4`. -/
structure Vec3 where
  x : ℝ
  y : ℝ
  z : ℝ

/-- A satellite object is used only through its `sgp4` method: from a
Julian date pair `(jd, fr)` it produces an error code `e` and a position
(the velocity is never used downstream, so it is omitted). -/
def Satrec : Type := ℚ → ℚ → ℤ × Vec3

/-- The mutable fields of `ISSTrackerApp` that the embedded methods touch:
`self.satellite`, `self.time_offset` (seconds), `self.last_tle_update`. -/
structure AppState where
  satellite : Option Satrec
  time_offset : ℚ
  last_tle_update : Option ℚ

/-- `__init__` lines 26-28: `time_offset = 0`, `satellite = None`,
`last_tle_update = None` (before `load_tle` runs). -/
def initState : AppState := { satellite := none, time_offset := 0, last_tle_update := none }

/-! ### eci_to_latlon (lines 119-134) -/

/-- Lines 120-121: the un-normalized GMST polynomial in the Julian date. -/
def gmstRaw (jd : ℚ) : ℚ :=
  let T := (jd - 2451545.0) / 36525.0
  280.46061837 + 360.98564736629 * (jd - 2451545.0) + 0.000387933 * T ^ 2 - T ^ 3 / 38710000.0

/-- Line 122: `GMST = GMST % 360.0`.  Python float `%` with a positive
divisor is `x - 360 * floor (x / 360)`. -/
def gmstNorm (jd : ℚ) : ℚ :=
  gmstRaw jd - 360 * ⌊gmstRaw jd / 360⌋

/-- Line 123: `theta = math.radians(GMST)`, i.e. degrees times `π / 180`. -/
noncomputable def theta (jd : ℚ) : ℝ :=
  (gmstNorm jd : ℝ) * Real.pi / 180

/-- Line 125: `x = pos[0]*cos(theta) + pos[1]*sin(theta)`. -/
noncomputable def ecefX (p : Vec3) (jd : ℚ) : ℝ :=
  p.x * Real.cos (theta jd) + p.y * Real.sin (theta jd)

/-- Line 126: `y = -pos[0]*sin(theta) + pos[1]*cos(theta)`. -/
noncomputable def ecefY (p : Vec3) (jd : ℚ) : ℝ :=
  -p.x * Real.sin (theta jd) + p.y * Real.cos (theta jd)

/-- Line 129: `r = math.sqrt(x**2 + y**2 + z**2)` (z is `pos[2]`, line 127). -/
noncomputable def rOf (p : Vec3) (jd : ℚ) : ℝ :=
  Real.sqrt (ecefX p jd ^ 2 + ecefY p jd ^ 2 + p.z ^ 2)

/-- `math.atan2 y x`: the angle in `(-π, π]` of the point `(x, y)`, which
is the argument of the complex number `x + y i` (and `0` at the origin,
as in Python). -/
noncomputable def atan2 (y x : ℝ) : ℝ :=
  Complex.arg ⟨x, y⟩

/-- Line 130: `lat = math.degrees(math.asin(z / r))`. -/
noncomputable def latOf (p : Vec3) (jd : ℚ) : ℝ :=
  Real.arcsin (p.z / rOf p jd) * 180 / Real.pi

/-- Lines 131-133: `lon = math.degrees(math.atan2(y, x))`, then subtract
360 if the result exceeds 180. -/
noncomputable def lonOf (p : Vec3) (jd : ℚ) : ℝ :=
  let l := atan2 (ecefY p jd) (ecefX p jd) * 180 / Real.pi
  if l > 180 then l - 360 else l

/-- Lines 119-134, `eci_to_latlon(pos, jd)`.  When `r` is zero the source
evaluates `z / r`, and Python float division by zero raises
`ZeroDivisionError` (uncaught by any caller); otherwise it returns the
latitude/longitude pair. -/
noncomputable def eci_to_latlon (p : Vec3) (jd : ℚ) : Except PyErr (ℝ × ℝ) :=
  if rOf p jd = 0 then Except.error PyErr.zeroDivisionError
  else Except.ok (latOf p jd, lonOf p jd)

/-! ### latlon_to_xy (lines 136-139) and smooth_longitude (lines 141-147) -/

/-- Lines 136-139: `x = (lon + 180) * (width / 360)`,
`y = (90 - lat) * (height / 180)`.  Generic over the number field so the
same definition serves exact rational statements and the real-valued
render pipeline. -/
def latlon_to_xy {α : Type} [Field α] (lat lon width height : α) : α × α :=
  ((lon + 180) * (width / 360), (90 - lat) * (height / 180))

/-- Lines 141-147: longitude unwrapping against the previous sample. -/
def smooth_longitude {α : Type} [LinearOrderedField α] (prev_lon curr_lon : α) : α :=
  let delta := curr_lon - prev_lon
  if delta > 180 then curr_lon - 360
  else if delta < -180 then curr_lon + 360
  else curr_lon

/-- The unwrap recursion of the path loop (lines 101-103) after the first
sample: each new longitude is smoothed against the previous unwrapped
value, which then becomes the new reference. -/
def unwrapFrom {α : Type} [LinearOrderedField α] (prev : α) : List α → List α
  | [] => []
  | l :: ls =>
    let l' := smooth_longitude prev l
    l' :: unwrapFrom l' ls

/-- The unwrap behaviour of the whole path loop (lines 92, 101-103) on a
longitude sequence: the first sample passes through unchanged
(`prev_lon is None`), later samples are unwrapped in order. -/
def unwrapLons {α : Type} [LinearOrderedField α] : List α → List α
  | [] => []
  | l :: ls => l :: unwrapFrom l ls

/-! ### Time controller (lines 149-156) and initial state -/

/-- Line 150: `self.time_offset += timedelta(minutes=2)` (120 seconds). -/
def go_forward (s : AppState) : AppState :=
  { s with time_offset := s.time_offset + 120 }

/-- Line 153: `self.time_offset -= timedelta(minutes=2)`. -/
def go_back (s : AppState) : AppState :=
  { s with time_offset := s.time_offset - 120 }

/-- Line 156: `self.time_offset = timedelta(seconds=0)`. -/
def reset_time (s : AppState) : AppState :=
  { s with time_offset := 0 }

/-- The three discrete user commands bound on lines 33-35. -/
inductive TimeCmd where
  | advance
  | rewind
  | reset

/-- Dispatch of one user command to its handler. -/
def execCmd : TimeCmd → AppState → AppState
  | TimeCmd.advance => go_forward
  | TimeCmd.rewind => go_back
  | TimeCmd.reset => reset_time

/-- A history of user commands, executed in order. -/
def execCmds (cmds : List TimeCmd) (s : AppState) : AppState :=
  cmds.foldl (fun s c => execCmd c s) s

/-! ### load_tle (lines 51-65) -/

/-- The tracked object's identifying label, line 57. -/
def issLabel : String := "ISS (ZARYA)"

/-- Python's substring test `"ISS (ZARYA)" in line`: the label's
characters occur contiguously in the line. -/
def containsLabel (line : String) : Prop :=
  issLabel.data <:+: line.data

instance (line : String) : Decidable (containsLabel line) :=
  List.decidableInfix issLabel.data line.data

/-- Post-hit part of lines 58-59: return the two lines following the
label hit, stripped.  If fewer than two lines follow, `lines[i+1]` or
`lines[i+2]` raises IndexError into the enclosing try/except, so no
element set is produced (`none`); either way the scan ends at the first
hit. -/
def takeTwo : List String → Option (String × String)
  | l1 :: l2 :: _ => some (l1.trim, l2.trim)
  | _ => none

/-- Scan loop of lines 56-63 (see `takeTwo` for the post-hit part). -/
def findTLE : List String → Option (String × String)
  | [] => none
  | line :: rest =>
    if containsLabel line then takeTwo rest
    else findTLE rest

/-- Lines 51-65, `load_tle`, given the already fetched and
newline-split payload (the network read is external I/O).  `twoline2rv`
is the external sgp4 constructor and `now` the external wall clock.  On
a successful scan the satellite and fetch timestamp are replaced
together; otherwise (label absent, or a truncated record raising
IndexError into the except block) the state is returned unchanged. -/
def load_tle (twoline2rv : String → String → Satrec) (now : ℚ)
    (payload : List String) (s : AppState) : AppState :=
  match findTLE payload with
  | some (l1, l2) =>
    { s with satellite := some (twoline2rv l1 l2), last_tle_update := some now }
  | none => s

/-! ### update_display (lines 77-117) -/

/-- The geometry a successful render tick computes for the canvas: the
tracked point's pixel position (lines 85, 88) and the pixel polyline of
the orbit path (lines 91-111). -/
structure Frame where
  issPoint : ℝ × ℝ
  track : List (ℝ × ℝ)

/-- Line 93: `range(-10, 90, 2)`, the fifty minute-offsets of the path loop. -/
def minsRange : List ℤ :=
  (List.range 50).map (fun k => -10 + 2 * (k : ℤ))

/-- Lines 94-106, one iteration of the path loop: sample the satellite's
model at the Julian date pair of `now + mins` minutes (`jdOf mins`, the
external `datetime`/`jday` computation), convert to geodetic coordinates
— the model's error code `e_fut` is discarded by the source — unwrap the
longitude against the previous sample when one exists, and append the
projected pixel point. -/
noncomputable def trackStep (sat : Satrec) (jdOf : ℤ → ℚ × ℚ)
    (acc : Option ℝ × List (ℝ × ℝ)) (mins : ℤ) :
    Except PyErr (Option ℝ × List (ℝ × ℝ)) :=
  (eci_to_latlon (sat (jdOf mins).1 (jdOf mins).2).2 (jdOf mins).1).bind fun ll =>
    let lonF := match acc.1 with
      | none => ll.2
      | some prev => smooth_longitude prev ll.2
    Except.ok (some lonF, acc.2 ++ [latlon_to_xy ll.1 lonF 800 400])

/-- Lines 91-106: the whole path loop, folding `trackStep` over the
fifty minute-offsets starting from `prev_lon = None` and an empty path. -/
noncomputable def trackPath (sat : Satrec) (jdOf : ℤ → ℚ × ℚ) :
    Except PyErr (List (ℝ × ℝ)) :=
  (minsRange.foldlM (trackStep sat jdOf) (none, [])).map (fun r => r.2)

/-- Lines 77-117, one `update_display` tick up to the canvas calls.
`jdOf mins` stands for the external `jday(now + mins minutes)`
computation, so `jdOf 0` is the `(jd, fr)` pair of line 82.  When
`self.satellite` is `None`, line 83 evaluates `None.sgp4`, raising
AttributeError, which no caller catches; otherwise the tick computes the
tracked point (the error code `e` of line 83 is discarded) and then the
path polyline. -/
noncomputable def update_display (jdOf : ℤ → ℚ × ℚ) (s : AppState) :
    Except PyErr Frame :=
  match s.satellite with
  | none => Except.error PyErr.attributeError
  | some sat =>
    (eci_to_latlon (sat (jdOf 0).1 (jdOf 0).2).2 (jdOf 0).1).bind fun ll =>
      (trackPath sat jdOf).bind fun path =>
        Except.ok { issPoint := latlon_to_xy ll.1 ll.2 800 400, track := path }

/-- A satellite whose perturbation model always reports error code 6
(decayed orbit) together with the unit-z inertial position. -/
noncomputable def sat6 : Satrec := fun _ _ => (6, ⟨0, 0, 1⟩)

/-- A payload with no line containing the tracked label. -/
def badPayload : List String := ["NOAA 15", "1 25338U 98030A   21336.5", "2 25338  98.6900"]

/-- A previously stored satellite, for exercising the unchanged-record
property. -/
noncomputable def storedSat : Satrec := fun _ _ => (0, ⟨0, 0, 1⟩)

/-- A state holding a previously fetched element set and timestamp. -/
noncomputable def storedState : AppState :=
  { satellite := some storedSat, time_offset := 0, last_tle_update := some 5 }

end ISSTracker

namespace ISSTracker

/-! ### Theorems for the computable components -/

/-- C6: the Track Builder's unwrapping maps the seam-crossing longitude
sequence `179, -179, -178` to `179, 181, 182`, and no two consecutive
unwrapped values of that sequence differ by more than 180 degrees. -/
theorem unwrap_seam_sequence :
    unwrapLons ([179, -179, -178] : List ℚ) = [179, 181, 182] ∧
      List.Chain' (fun a b => |b - a| ≤ 180) (unwrapLons ([179, -179, -178] : List ℚ)) := by
  have h : unwrapLons ([179, -179, -178] : List ℚ) = [179, 181, 182] := by
    norm_num [unwrapLons, unwrapFrom, smooth_longitude]
  refine ⟨h, ?_⟩
  rw [h]
  norm_num [List.chain'_cons, abs_le]

/-- C7: for every Julian date, the normalized GMST value produced by the
modulo-360 step of `eci_to_latlon` lies in `[0, 360)`, including dates
before J2000 where the raw polynomial is negative. -/
theorem gmst_normalized_range (jd : ℚ) : 0 ≤ gmstNorm jd ∧ gmstNorm jd < 360 := by
  have h : gmstNorm jd = 360 * Int.fract (gmstRaw jd / 360) := by
    rw [gmstNorm, Int.fract]
    rw [mul_sub, mul_div_cancel₀ _ (by norm_num : (360 : ℚ) ≠ 0)]
  constructor
  · rw [h]
    have := Int.fract_nonneg (gmstRaw jd / 360)
    positivity
  · rw [h]
    calc 360 * Int.fract (gmstRaw jd / 360) < 360 * 1 := by
          have := Int.fract_lt_one (gmstRaw jd / 360)
          gcongr
      _ = 360 := by norm_num

/-- C7 witness: the normalization bound instantiated at the concrete
pre-J2000 Julian date 2451000, where the raw GMST polynomial is
negative. -/
theorem gmst_normalized_range_witness :
    gmstRaw (2451000 : ℚ) < 0 ∧ 0 ≤ gmstNorm (2451000 : ℚ) ∧ gmstNorm (2451000 : ℚ) < 360 :=
  ⟨by norm_num [gmstRaw], gmst_normalized_range 2451000⟩

/-- C8: advancing then rewinding returns the time offset to its original
value, resetting yields offset zero after any prior command history, and
the initial offset is zero. -/
theorem time_controller_laws :
    (∀ s : AppState, (go_back (go_forward s)).time_offset = s.time_offset) ∧
      (∀ cmds : List TimeCmd, ∀ s : AppState,
        (execCmds (cmds ++ [TimeCmd.reset]) s).time_offset = 0) ∧
      initState.time_offset = 0 := by
  refine ⟨fun s => ?_, fun cmds s => ?_, rfl⟩
  · simp [go_back, go_forward]
  · rw [execCmds, List.foldl_append]
    rfl

/-- C9: the projector formula sends the equator/antimeridian point to the
left edge at half height, the north pole on the prime meridian to the top
middle, and the south pole at longitude 180 to the bottom-right corner,
for every viewport width and height. -/
theorem projector_corner_identities (w h : ℚ) :
    latlon_to_xy 0 (-180) w h = (0, h / 2) ∧
      latlon_to_xy 90 0 w h = (w / 2, 0) ∧
      latlon_to_xy (-90) 180 w h = (w, h) := by
  refine ⟨?_, ?_, ?_⟩ <;>
    · rw [latlon_to_xy, Prod.mk.injEq]
      constructor <;> ring

/-- C9 witness: the three corner identities at the source's fixed
viewport, width 800 and height 400. -/
theorem projector_corner_identities_witness :
    latlon_to_xy 0 (-180) (800 : ℚ) 400 = (0, 200) ∧
      latlon_to_xy 90 0 (800 : ℚ) 400 = (400, 0) ∧
      latlon_to_xy (-90) 180 (800 : ℚ) 400 = (800, 400) := by
  have h := projector_corner_identities (800 : ℚ) 400
  norm_num at h
  exact h

/-- C10: `smooth_longitude` returns the current longitude unchanged or
shifted by exactly ±360, so unwrapping never changes which meridian a
sample denotes. -/
theorem smooth_longitude_congruent (prev curr : ℚ) :
    smooth_longitude prev curr = curr ∨ smooth_longitude prev curr = curr - 360 ∨
      smooth_longitude prev curr = curr + 360 := by
  simp only [smooth_longitude]
  split_ifs with h1 h2
  · exact Or.inr (Or.inl rfl)
  · exact Or.inr (Or.inr rfl)
  · exact Or.inl rfl

/-- C10 witness: the congruence at the seam-crossing pair `(179, -179)`. -/
theorem smooth_longitude_congruent_witness :
    smooth_longitude (179 : ℚ) (-179) = -179 ∨
      smooth_longitude (179 : ℚ) (-179) = -179 - 360 ∨
      smooth_longitude (179 : ℚ) (-179) = -179 + 360 :=
  smooth_longitude_congruent 179 (-179)

/-! ### Helper lemmas for the frame transform and the render tick -/

theorem ok_dot_bind {ε α β : Type} (a : α) (f : α → Except ε β) :
    (Except.ok a : Except ε α).bind f = f a := rfl

theorem ok_seq_bind {ε α β : Type} (a : α) (f : α → Except ε β) :
    (Except.ok a : Except ε α) >>= f = f a := rfl

theorem map_ok_val {ε α β : Type} (f : α → β) (a : α) :
    (Except.ok a : Except ε α).map f = Except.ok (f a) := rfl

theorem atan2_le_pi (y x : ℝ) : atan2 y x ≤ Real.pi :=
  Complex.arg_le_pi _

theorem neg_pi_lt_atan2 (y x : ℝ) : -Real.pi < atan2 y x :=
  Complex.neg_pi_lt_arg _

theorem pi_mul_180_div_pi : Real.pi * 180 / Real.pi = 180 := by
  rw [div_eq_iff Real.pi_ne_zero]
  ring

theorem half_pi_mul_180_div_pi : Real.pi / 2 * 180 / Real.pi = 90 := by
  rw [div_eq_iff Real.pi_ne_zero]
  ring

theorem lon_raw_le (p : Vec3) (jd : ℚ) :
    atan2 (ecefY p jd) (ecefX p jd) * 180 / Real.pi ≤ 180 := by
  calc atan2 (ecefY p jd) (ecefX p jd) * 180 / Real.pi
      ≤ Real.pi * 180 / Real.pi := by
        gcongr
        exact atan2_le_pi _ _
    _ = 180 := pi_mul_180_div_pi

theorem lon_raw_gt (p : Vec3) (jd : ℚ) :
    -180 < atan2 (ecefY p jd) (ecefX p jd) * 180 / Real.pi := by
  calc (-180 : ℝ) = -Real.pi * 180 / Real.pi := by
        rw [neg_mul, neg_div, pi_mul_180_div_pi]
    _ < atan2 (ecefY p jd) (ecefX p jd) * 180 / Real.pi := by
        gcongr
        exact neg_pi_lt_atan2 _ _

theorem lonOf_bounds (p : Vec3) (jd : ℚ) : -180 < lonOf p jd ∧ lonOf p jd ≤ 180 := by
  have hle := lon_raw_le p jd
  have hgt := lon_raw_gt p jd
  have h : lonOf p jd = atan2 (ecefY p jd) (ecefX p jd) * 180 / Real.pi := by
    simp only [lonOf]
    rw [if_neg (not_lt.mpr hle)]
  rw [h]
  exact ⟨hgt, hle⟩

theorem latOf_bounds (p : Vec3) (jd : ℚ) : -90 ≤ latOf p jd ∧ latOf p jd ≤ 90 := by
  have h1 : Real.arcsin (p.z / rOf p jd) * 180 / Real.pi ≤ Real.pi / 2 * 180 / Real.pi := by
    gcongr
    exact Real.arcsin_le_pi_div_two _
  have h2 : -(Real.pi / 2) * 180 / Real.pi ≤ Real.arcsin (p.z / rOf p jd) * 180 / Real.pi := by
    gcongr
    exact Real.neg_pi_div_two_le_arcsin _
  rw [half_pi_mul_180_div_pi] at h1
  rw [neg_mul, neg_div, half_pi_mul_180_div_pi] at h2
  unfold latOf
  exact ⟨h2, h1⟩

theorem rOf_unitZ (jd : ℚ) : rOf ⟨0, 0, 1⟩ jd = 1 := by
  have hx : ecefX ⟨0, 0, 1⟩ jd = 0 := by simp [ecefX]
  have hy : ecefY ⟨0, 0, 1⟩ jd = 0 := by simp [ecefY]
  unfold rOf
  rw [hx, hy]
  norm_num

theorem eci_to_latlon_unitZ (jd : ℚ) :
    eci_to_latlon ⟨0, 0, 1⟩ jd = Except.ok (90, 0) := by
  have hr := rOf_unitZ jd
  have hx : ecefX ⟨0, 0, 1⟩ jd = 0 := by simp [ecefX]
  have hy : ecefY ⟨0, 0, 1⟩ jd = 0 := by simp [ecefY]
  have hlat : latOf ⟨0, 0, 1⟩ jd = 90 := by
    unfold latOf
    rw [hr]
    show Real.arcsin (1 / 1) * 180 / Real.pi = 90
    rw [div_one, Real.arcsin_one, half_pi_mul_180_div_pi]
  have hlon : lonOf ⟨0, 0, 1⟩ jd = 0 := by
    have h0 : atan2 (ecefY ⟨0, 0, 1⟩ jd) (ecefX ⟨0, 0, 1⟩ jd) = 0 := by
      rw [hx, hy, atan2]
      exact Complex.arg_zero
    simp only [lonOf, h0, zero_mul, zero_div]
    norm_num
  unfold eci_to_latlon
  rw [if_neg (by rw [hr]; norm_num), hlat, hlon]

theorem smooth_longitude_zero_zero : smooth_longitude (0 : ℝ) 0 = 0 := by
  unfold smooth_longitude
  norm_num

theorem trackStep_sat6 (jdOf : ℤ → ℚ × ℚ) (o : Option ℝ) (rest : List (ℝ × ℝ)) (m : ℤ)
    (ho : o = none ∨ o = some 0) :
    trackStep sat6 jdOf (o, rest) m =
      Except.ok (some 0, rest ++ [latlon_to_xy (90 : ℝ) 0 800 400]) := by
  rcases ho with h | h <;> subst h <;>
    simp only [trackStep, sat6, eci_to_latlon_unitZ, ok_dot_bind, smooth_longitude_zero_zero]

theorem foldlM_trackStep_sat6 (jdOf : ℤ → ℚ × ℚ) (l : List ℤ) :
    ∀ o : Option ℝ, (o = none ∨ o = some 0) → ∀ rest : List (ℝ × ℝ),
      ∃ o', List.foldlM (trackStep sat6 jdOf) (o, rest) l =
        Except.ok (o', rest ++ List.replicate l.length (latlon_to_xy (90 : ℝ) 0 800 400)) := by
  induction l with
  | nil =>
    intro o ho rest
    refine ⟨o, ?_⟩
    simp only [List.foldlM_nil, List.length_nil, List.replicate_zero, List.append_nil]
    rfl
  | cons m ms ih =>
    intro o ho rest
    rw [List.foldlM_cons, trackStep_sat6 jdOf o rest m ho, ok_seq_bind]
    obtain ⟨o', h'⟩ := ih (some 0) (Or.inr rfl) (rest ++ [latlon_to_xy (90 : ℝ) 0 800 400])
    refine ⟨o', ?_⟩
    rw [h']
    simp [List.replicate_succ]

/-! ### Theorems for the error-handling claims -/

/-- C1: before any element set has been loaded (`self.satellite` is
`None`), a render tick does not skip the propagator call and complete
cleanly: line 83 evaluates `None.sgp4(jd, fr)`, so the tick raises
AttributeError for every external clock model and every stored time
offset, and the render loop is never rescheduled. -/
theorem update_display_no_elements_raises (jdOf : ℤ → ℚ × ℚ) (off : ℚ) (lu : Option ℚ) :
    update_display jdOf { satellite := none, time_offset := off, last_tle_update := lu } =
      Except.error PyErr.attributeError := rfl

/-- C1 witness: the AttributeError tick at the freshly initialized
state, which is exactly the state after a failed first fetch. -/
theorem update_display_no_elements_raises_witness :
    update_display (fun _ => (2451545, 0)) initState = Except.error PyErr.attributeError :=
  update_display_no_elements_raises (fun _ => (2451545, 0)) 0 none

/-- C2: at an inertial position whose Earth-fixed norm is zero, the
conversion does not return a signalled Degenerate result: the source
evaluates `z / r` with `r = 0`, so Python raises ZeroDivisionError (an
uncaught exception), for every Julian date. -/
theorem eci_to_latlon_r_zero_raises (jd : ℚ) :
    eci_to_latlon ⟨0, 0, 0⟩ jd = Except.error PyErr.zeroDivisionError := by
  have hx : ecefX ⟨0, 0, 0⟩ jd = 0 := by simp [ecefX]
  have hy : ecefY ⟨0, 0, 0⟩ jd = 0 := by simp [ecefY]
  have hr : rOf ⟨0, 0, 0⟩ jd = 0 := by
    unfold rOf
    rw [hx, hy]
    norm_num
  unfold eci_to_latlon
  rw [if_pos hr]

/-- C2 witness: the division-by-zero failure at the zero vector and the
J2000 epoch. -/
theorem eci_to_latlon_r_zero_raises_witness :
    eci_to_latlon ⟨0, 0, 0⟩ 2451545 = Except.error PyErr.zeroDivisionError :=
  eci_to_latlon_r_zero_raises 2451545

/-- C3: for every inertial position with positive Earth-fixed norm and
every Julian date, `eci_to_latlon` succeeds with a latitude in
`[-90, 90]` and a longitude in `(-180, 180]` — in particular longitude
`-180` itself is never returned. -/
theorem eci_to_latlon_range (p : Vec3) (jd : ℚ) (h : 0 < rOf p jd) :
    ∃ lat lon, eci_to_latlon p jd = Except.ok (lat, lon) ∧
      -90 ≤ lat ∧ lat ≤ 90 ∧ -180 < lon ∧ lon ≤ 180 := by
  obtain ⟨hlat1, hlat2⟩ := latOf_bounds p jd
  obtain ⟨hlon1, hlon2⟩ := lonOf_bounds p jd
  refine ⟨latOf p jd, lonOf p jd, ?_, hlat1, hlat2, hlon1, hlon2⟩
  unfold eci_to_latlon
  rw [if_neg (ne_of_gt h)]

/-- C3 witness: the range guarantee at the unit-z position and the J2000
epoch, where the Earth-fixed norm is 1. -/
theorem eci_to_latlon_range_witness :
    0 < rOf ⟨0, 0, 1⟩ 2451545 ∧
      ∃ lat lon, eci_to_latlon ⟨0, 0, 1⟩ 2451545 = Except.ok (lat, lon) ∧
        -90 ≤ lat ∧ lat ≤ 90 ∧ -180 < lon ∧ lon ≤ 180 := by
  have hr : (0 : ℝ) < rOf ⟨0, 0, 1⟩ 2451545 := by
    rw [rOf_unitZ]
    norm_num
  exact ⟨hr, eci_to_latlon_range ⟨0, 0, 1⟩ 2451545 hr⟩

/-- C4: when the perturbation model reports a nonzero error code (the
satellite `sat6` always reports code 6, a decayed orbit), the render
tick does not skip its drawing: the erroneous position is converted and
projected, and the frame contains a tracked point — at pixel `(400, 0)`
for the unit-z position — instead of the previous display being
retained. -/
theorem update_display_ignores_error_code (jdOf : ℤ → ℚ × ℚ) (off : ℚ) (lu : Option ℚ) :
    (∀ jd fr, (sat6 jd fr).1 = 6) ∧
      ∃ track, update_display jdOf
          { satellite := some sat6, time_offset := off, last_tle_update := lu } =
        Except.ok { issPoint := (400, 0), track := track } := by
  refine ⟨fun _ _ => rfl, ?_⟩
  obtain ⟨o', h'⟩ := foldlM_trackStep_sat6 jdOf minsRange none (Or.inl rfl) []
  have hlen : minsRange.length = 50 := rfl
  rw [hlen] at h'
  have hxy : latlon_to_xy (90 : ℝ) 0 800 400 = (400, 0) := by
    unfold latlon_to_xy
    rw [Prod.mk.injEq]
    constructor <;> norm_num
  refine ⟨List.replicate 50 (latlon_to_xy (90 : ℝ) 0 800 400), ?_⟩
  simp only [update_display, sat6, eci_to_latlon_unitZ, ok_dot_bind, trackPath, h',
    map_ok_val, List.nil_append, hxy]

/-- C4 witness: the decayed-orbit model still yields a drawn tracked
point at a concrete clock model and stored state. -/
theorem update_display_ignores_error_code_witness :
    (∀ jd fr, (sat6 jd fr).1 = 6) ∧
      ∃ track, update_display (fun _ => (2451545, 0))
          { satellite := some sat6, time_offset := 0, last_tle_update := none } =
        Except.ok { issPoint := (400, 0), track := track } :=
  update_display_ignores_error_code (fun _ => (2451545, 0)) 0 none

/-- C5: when no payload line contains the tracked label, the scan
reports no match (the source's silent NotFound outcome) and `load_tle`
leaves the state unchanged, so the previously stored element set and
fetch timestamp are still retrievable, identical to before the call. -/
theorem load_tle_label_absent (twoline2rv : String → String → Satrec) (now : ℚ)
    (payload : List String) (s : AppState)
    (h : ∀ line ∈ payload, ¬ containsLabel line) :
    findTLE payload = none ∧ load_tle twoline2rv now payload s = s := by
  have hfind : findTLE payload = none := by
    induction payload with
    | nil => rfl
    | cons line rest ih =>
      simp only [findTLE]
      rw [if_neg (h line (List.mem_cons_self line rest))]
      exact ih fun l hl => h l (List.mem_cons_of_mem line hl)
  refine ⟨hfind, ?_⟩
  unfold load_tle
  rw [hfind]

/-- C5 witness: a payload listing a different object leaves a state that
holds a previously fetched element set and timestamp fully unchanged. -/
theorem load_tle_label_absent_witness :
    findTLE badPayload = none ∧
      load_tle (fun _ _ => storedSat) 10 badPayload storedState = storedState :=
  load_tle_label_absent (fun _ _ => storedSat) 10 badPayload storedState (by decide)

end ISSTracker
